import Mathlib

/-!
Shallow embedding of the streaming core of
src/vimbax_camera/src/vimbax_camera.cpp (class VimbaXCamera and its nested
Frame class): the start/stop capture state machine, buffer
announce/queue/revoke bookkeeping, the frame completion callback, the pixel
transform, the image encoding map and the timestamp conversion.

VmbC error codes are plain integers; VmbErrorSuccess is 0 and every branch in
the source only tests a code against VmbErrorSuccess, so codes are modelled as
Int with 0 meaning success.  Vendor subsystem calls (VmbCAPI) and device
feature reads are modelled by an environment record holding the code (and
value) each call returns; the camera object state is an explicit record that
the operations thread through.
-/

/- ===================== pixel formats and encodings ===================== -/

/-- Embedding of the VmbPixelFormatType enumeration (VmbC).  It contains every
constructor that appears in a switch of vimbax_camera.cpp, plus a few real
VmbC formats that appear in no switch there (Mono10p, Mono12Packed, Rgb10,
Rgb12, Yuv411, YCbCr411_8) so that the default branches of those switches are
inhabited in the model. -/
inductive VmbPixelFormatType where
  | Mono8 | Mono10 | Mono12 | Mono14 | Mono16
  | BayerGR8 | BayerRG8 | BayerGB8 | BayerBG8
  | BayerGR10 | BayerRG10 | BayerGB10 | BayerBG10
  | BayerGR12 | BayerRG12 | BayerGB12 | BayerBG12
  | BayerGR16 | BayerRG16 | BayerGB16 | BayerBG16
  | Rgb8 | Bgr8 | Rgb16 | Bgr16
  | Argb8 | Bgra8 | Rgba16 | Bgra16
  | Yuv422 | Yuv422_8 | YCbCr422_8 | YCbCr601_422_8 | YCbCr709_422_8
  | YCbCr422_8_CbYCrY | YCbCr601_422_8_CbYCrY | YCbCr709_422_8_CbYCrY
  | Mono10p | Mono12Packed | Rgb10 | Rgb12 | Yuv411 | YCbCr411_8
  deriving DecidableEq

/-- String constants of sensor_msgs::image_encodings (ROS image_encodings.hpp)
used by Frame::get_image_encoding. -/
def MONO8 : String := "mono8"
def MONO16 : String := "mono16"
def BAYER_GRBG8 : String := "bayer_grbg8"
def BAYER_RGGB8 : String := "bayer_rggb8"
def BAYER_GBRG8 : String := "bayer_gbrg8"
def BAYER_BGGR8 : String := "bayer_bggr8"
def BAYER_GRBG16 : String := "bayer_grbg16"
def BAYER_RGGB16 : String := "bayer_rggb16"
def BAYER_GBRG16 : String := "bayer_gbrg16"
def BAYER_BGGR16 : String := "bayer_bggr16"
def RGB8 : String := "rgb8"
def BGR8 : String := "bgr8"
def RGB16 : String := "rgb16"
def BGR16 : String := "bgr16"
def RGBA8 : String := "rgba8"
def BGRA8 : String := "bgra8"
def RGBA16 : String := "rgba16"
def BGRA16 : String := "bgra16"
def YUV422 : String := "yuv422"
def YUV422_YUY2 : String := "yuv422_yuy2"
def TYPE_8UC1 : String := "8UC1"

/-- Embedding of VimbaXCamera::Frame::get_image_encoding
(vimbax_camera.cpp lines 595-668): the switch over the pixel format of the
frame, with the default branch returning TYPE_8UC1. -/
def Frame.get_image_encoding (pixelFormat : VmbPixelFormatType) : String :=
  match pixelFormat with
  | .Mono8 => MONO8
  | .Mono10 | .Mono12 | .Mono14 | .Mono16 => MONO16
  | .BayerGR8 => BAYER_GRBG8
  | .BayerRG8 => BAYER_RGGB8
  | .BayerGB8 => BAYER_GBRG8
  | .BayerBG8 => BAYER_BGGR8
  | .BayerGR10 => BAYER_GRBG16
  | .BayerRG10 => BAYER_RGGB16
  | .BayerGB10 => BAYER_GBRG16
  | .BayerBG10 => BAYER_BGGR16
  | .BayerGR12 => BAYER_GRBG16
  | .BayerRG12 => BAYER_RGGB16
  | .BayerGB12 => BAYER_GBRG16
  | .BayerBG12 => BAYER_BGGR16
  | .BayerGR16 => BAYER_GRBG16
  | .BayerRG16 => BAYER_RGGB16
  | .BayerGB16 => BAYER_GBRG16
  | .BayerBG16 => BAYER_BGGR16
  | .Rgb8 => RGB8
  | .Bgr8 => BGR8
  | .Rgb16 => RGB16
  | .Bgr16 => BGR16
  | .Argb8 => RGBA8
  | .Bgra8 => BGRA8
  | .Rgba16 => RGBA16
  | .Bgra16 => BGRA16
  | .Yuv422 => YUV422
  | .Yuv422_8 | .YCbCr422_8 | .YCbCr601_422_8 | .YCbCr709_422_8 => YUV422_YUY2
  | .YCbCr422_8_CbYCrY => YUV422
  | .YCbCr601_422_8_CbYCrY | .YCbCr709_422_8_CbYCrY => YUV422_YUY2
  | _ => TYPE_8UC1

/-- The pixel format tags that appear as explicit case labels in the switch of
Frame::get_image_encoding (everything except the default branch). -/
def mappedFormats : List VmbPixelFormatType :=
  [.Mono8, .Mono10, .Mono12, .Mono14, .Mono16,
   .BayerGR8, .BayerRG8, .BayerGB8, .BayerBG8,
   .BayerGR10, .BayerRG10, .BayerGB10, .BayerBG10,
   .BayerGR12, .BayerRG12, .BayerGB12, .BayerBG12,
   .BayerGR16, .BayerRG16, .BayerGB16, .BayerBG16,
   .Rgb8, .Bgr8, .Rgb16, .Bgr16,
   .Argb8, .Bgra8, .Rgba16, .Bgra16,
   .Yuv422, .Yuv422_8, .YCbCr422_8, .YCbCr601_422_8, .YCbCr709_422_8,
   .YCbCr422_8_CbYCrY, .YCbCr601_422_8_CbYCrY, .YCbCr709_422_8_CbYCrY]

/- ===================== pixel transform ===================== -/

/-- Modelled from the spec: helper::left_shift16 (declared in the helper
header of this repository, implementation not among the given sources)
left-shifts every 16-bit sample of the source buffer into the destination
buffer, zero-filling the low bits.  Buffers are modelled as lists of 16-bit
samples (natural numbers reduced mod 2^16); size is the number of samples
written, matching the byte count data.size() the caller passes. -/
def left_shift16 (src : List Nat) (size : Nat) (shift : Nat) : List Nat :=
  (src.take size).map fun w => (w <<< shift) % 65536

/-- Allocation mode of a frame (VimbaXCamera::Frame::AllocationMode). -/
inductive AllocationMode where
  | kByImage
  | kByTl
  deriving DecidableEq

/-- The raw bit depth of the formats handled by the shift branches of
Frame::transform: 10, 12 or 14 for the formats stored as the low bits of each
16-bit sample; none for every other format (which takes the default branch). -/
def rawBitDepth : VmbPixelFormatType → Option Nat
  | .Mono10 | .BayerBG10 | .BayerGB10 | .BayerGR10 | .BayerRG10 => some 10
  | .Mono12 | .BayerBG12 | .BayerGB12 | .BayerGR12 | .BayerRG12 => some 12
  | .Mono14 => some 14
  | _ => none

/-- Embedding of VimbaXCamera::Frame::transform (vimbax_camera.cpp lines
541-567).  imageData is the raw buffer the subsystem filled
(vmb_frame_.imageData), data is the normalized destination buffer of the
frame; the result is the new contents of data.  The 10/12/14 bit formats go
through left_shift16 with shift 6/4/2; every other format byte-copies
(memcpy of data.size() units) when the allocation mode is kByTl and leaves
data untouched when it is kByImage. -/
def Frame.transform (pixelFormat : VmbPixelFormatType)
    (allocation_mode : AllocationMode)
    (imageData : List Nat) (data : List Nat) : List Nat :=
  match pixelFormat with
  | .Mono10 | .BayerBG10 | .BayerGB10 | .BayerGR10 | .BayerRG10 =>
      left_shift16 imageData data.length 6
  | .Mono12 | .BayerBG12 | .BayerGB12 | .BayerGR12 | .BayerRG12 =>
      left_shift16 imageData data.length 4
  | .Mono14 =>
      left_shift16 imageData data.length 2
  | _ =>
      if allocation_mode = AllocationMode.kByTl then imageData.take data.length
      else data

/- ===================== timestamp conversion ===================== -/

/-- std::nano::den, the nanoseconds-per-second constant. -/
def nano_den : Nat := 1000000000

/-- The conversion branch of VimbaXCamera::Frame::timestamp_to_ns
(vimbax_camera.cpp lines 529-533), taken when the DeviceTimestampFrequency
feature read succeeded.  Division is machine integer division; timestamp and
frequency are nonnegative (uint64 timestamp, positive device frequency), so
they are modelled as Nat with Nat truncating division. -/
def timestamp_to_ns_conv (timestamp : Nat) (timestampFrequency : Nat) : Nat :=
  if timestampFrequency > nano_den then
    timestamp / (timestampFrequency / nano_den)
  else
    timestamp * (nano_den / timestampFrequency)

/-- Embedding of VimbaXCamera::Frame::timestamp_to_ns (lines 516-538): if the
camera is gone or the frequency feature read fails (freqQuery = none) the raw
timestamp is returned unmodified, otherwise the conversion branch runs. -/
def timestamp_to_ns (timestamp : Nat) (freqQuery : Option Nat) : Nat :=
  match freqQuery with
  | some f => timestamp_to_ns_conv timestamp f
  | none => timestamp

/-- Division with an explicit zero-divisor guard, used to show where
timestamp_to_ns_conv would divide by zero. -/
def checkedDiv (a b : Nat) : Option Nat :=
  if b = 0 then none else some (a / b)

/-- timestamp_to_ns_conv with every division routed through checkedDiv:
returns none exactly when some division of the source expression has a zero
divisor. -/
def timestamp_to_ns_checked (timestamp : Nat) (f : Nat) : Option Nat :=
  if f > nano_den then
    match checkedDiv f nano_den with
    | none => none
    | some q =>
      match checkedDiv timestamp q with
      | none => none
      | some r => some r
  else
    match checkedDiv nano_den f with
    | none => none
    | some m => some (timestamp * m)

/- ===================== frame creation ===================== -/

/-- bpp extraction of Frame::create (line 438):
uint32_t const bpp = (pixelFormat >> 16) & 0xFF, on the numeric PFNC value of
the pixel format. -/
def bppOf (pixelFormatValue : Nat) : Nat := (pixelFormatValue >>> 16) &&& 0xFF

/-- line (bytes per line) of Frame::create (line 449): width * bpp / 8 in
integer arithmetic. -/
def lineOf (width bpp : Nat) : Nat := width * bpp / 8

/-- Allocation mode decision of Frame::create (lines 449-452):
realSize = height * line, and the mode is kByImage when realSize equals the
requested size, else kByTl. -/
def Frame.createAllocMode (pixelFormatValue width height size : Nat) :
    AllocationMode :=
  if height * lineOf width (bppOf pixelFormatValue) = size then
    AllocationMode.kByImage
  else
    AllocationMode.kByTl

/- ===================== camera state machine ===================== -/

/-- Trace entries for the vendor subsystem calls the streaming state machine
makes, in program order. -/
inductive ApiCall where
  | payloadSizeGet
  | frameAnnounce
  | captureStart
  | frameQueue
  | acqStartRun
  | acqStopRun
  | captureEnd
  | queueFlush
  | frameRevokeAll
  deriving DecidableEq

/-- The two SFNC command features the streaming code runs. -/
inductive SFNCFeatures where
  | AcquisitionStart
  | AcquisitionStop
  deriving DecidableEq

/-- One element of the frames_ pool: the fields of a created Frame that the
claims observe.  data_size is data.size() after Frame::create resized it;
buffer_size is vmb_frame_.bufferSize; step is the recorded bytes per line. -/
structure Frame where
  allocation_mode : AllocationMode
  data_size : Nat
  buffer_size : Nat
  step : Nat
  deriving DecidableEq

/-- Responses of the vendor subsystem (VmbCAPI) and of the device features the
streaming code reads.  Each entry is the error code the call returns (0 =
VmbErrorSuccess), paired with the produced value where there is one.
frameAnnounce and captureFrameQueue are indexed (by the number of frames
already announced, resp. the index of the frame being queued) because they are
called once per frame.  feature_command_run polls FeatureCommandIsDone in an
unbounded sleep loop after a successful FeatureCommandRun; the poll is assumed
to terminate and the whole command is modelled by its final code. -/
structure VmbCEnv where
  payloadSizeGet : Int × Nat
  pixelFormatGet : Int × Nat
  widthGet : Int × Nat
  heightGet : Int × Nat
  frameAnnounce : Nat → Int
  captureStart : Int
  captureFrameQueue : Nat → Int
  featureCommandRun : SFNCFeatures → Int
  captureEnd : Int
  captureQueueFlush : Int
  frameRevokeAll : Int

/-- The observable state of a VimbaXCamera object: the streaming_ flag, the
frames_ vector (its successfully created entries), the number of buffers
currently announced with (registered at) the capture subsystem, and the trace
of subsystem calls made so far. -/
structure CameraState where
  streaming : Bool
  frames : List Frame
  announced : Nat
  calls : List ApiCall
  deriving DecidableEq

/-- A fresh camera object: not streaming, empty pool, nothing announced. -/
def initState : CameraState :=
  { streaming := false, frames := [], announced := 0, calls := [] }

/-- Embedding of VimbaXCamera::is_streaming (lines 422-425). -/
def is_streaming (s : CameraState) : Bool := s.streaming

/-- Embedding of VimbaXCamera::Frame::create (lines 427-478): query the pixel
format (abstracted to its final code/value), width and height, compute line,
realSize and the allocation mode, size the data buffer, then announce the
frame.  On announce failure the error is returned; on success the announced
count grows by one.  The announce attempt is recorded in the call trace either
way. -/
def Frame.create (env : VmbCEnv) (size : Nat) (s : CameraState) :
    Except Int Frame × CameraState :=
  if env.pixelFormatGet.1 ≠ 0 then (Except.error env.pixelFormatGet.1, s)
  else if env.widthGet.1 ≠ 0 then (Except.error env.widthGet.1, s)
  else if env.heightGet.1 ≠ 0 then (Except.error env.heightGet.1, s)
  else
    let pf := env.pixelFormatGet.2
    let w := env.widthGet.2
    let h := env.heightGet.2
    let line := lineOf w (bppOf pf)
    let realSize := h * line
    let allocMode := Frame.createAllocMode pf w h size
    let fr : Frame :=
      { allocation_mode := allocMode
        data_size := if allocMode = AllocationMode.kByTl then realSize else size
        buffer_size := size
        step := line }
    let s1 : CameraState := { s with calls := s.calls ++ [ApiCall.frameAnnounce] }
    let code := env.frameAnnounce s.announced
    if code = 0 then
      (Except.ok fr, { s1 with announced := s1.announced + 1 })
    else
      (Except.error code, s1)

/-- The frame creation loop of start_streaming (lines 173-184): create (and
thereby announce) one frame per slot; the first failure aborts the loop and is
returned, leaving the frames created so far in the pool. -/
def announceLoop (env : VmbCEnv) (size : Nat) :
    Nat → CameraState → Except Int Unit × CameraState
  | 0, s => (Except.ok (), s)
  | n + 1, s =>
    match Frame.create env size s with
    | (Except.error e, s1) => (Except.error e, s1)
    | (Except.ok fr, s1) =>
      announceLoop env size n { s1 with frames := s1.frames ++ [fr] }

/-- The queue loop of start_streaming (lines 192-198): queue every frame of
the pool (Frame::queue = CaptureFrameQueue); the first failure aborts and is
returned. -/
def queueLoop (env : VmbCEnv) :
    Nat → Nat → CameraState → Except Int Unit × CameraState
  | 0, _, s => (Except.ok (), s)
  | n + 1, i, s =>
    let s1 : CameraState := { s with calls := s.calls ++ [ApiCall.frameQueue] }
    if env.captureFrameQueue i = 0 then queueLoop env n (i + 1) s1
    else (Except.error (env.captureFrameQueue i), s1)

/-- Embedding of VimbaXCamera::feature_command_run (lines 251-269): run the
command and poll until done; the unbounded poll is assumed to terminate, so
the call is modelled by its final code from the environment. -/
def feature_command_run (env : VmbCEnv) (name : SFNCFeatures) : Except Int Unit :=
  if env.featureCommandRun name = 0 then Except.ok ()
  else Except.error (env.featureCommandRun name)

/-- Embedding of VimbaXCamera::start_streaming (lines 157-212).  If already
streaming, nothing happens and success is returned.  Otherwise: clear the
pool, read the payload size, create/announce every frame (announceLoop),
CaptureStart, queue every frame (queueLoop), optionally run AcquisitionStart,
and only then set streaming_.  Every failure returns that error immediately,
with no unwinding of the steps already performed. -/
def start_streaming (env : VmbCEnv) (bufferCount : Nat)
    (startAcquisition : Bool) (s : CameraState) :
    Except Int Unit × CameraState :=
  if s.streaming then (Except.ok (), s)
  else
    let s0 : CameraState := { s with frames := [] }
    let s1 : CameraState := { s0 with calls := s0.calls ++ [ApiCall.payloadSizeGet] }
    if env.payloadSizeGet.1 ≠ 0 then (Except.error env.payloadSizeGet.1, s1)
    else
      match announceLoop env env.payloadSizeGet.2 bufferCount s1 with
      | (Except.error e, s2) => (Except.error e, s2)
      | (Except.ok _, s2) =>
        let s3 : CameraState := { s2 with calls := s2.calls ++ [ApiCall.captureStart] }
        if env.captureStart ≠ 0 then (Except.error env.captureStart, s3)
        else
          match queueLoop env s3.frames.length 0 s3 with
          | (Except.error e, s4) => (Except.error e, s4)
          | (Except.ok _, s4) =>
            if startAcquisition then
              let s5 : CameraState := { s4 with calls := s4.calls ++ [ApiCall.acqStartRun] }
              match feature_command_run env SFNCFeatures.AcquisitionStart with
              | Except.error e => (Except.error e, s5)
              | Except.ok _ => (Except.ok (), { s5 with streaming := true })
            else
              (Except.ok (), { s4 with streaming := true })

/-- Embedding of VimbaXCamera::stop_streaming (lines 214-249).  If not
streaming, nothing happens and success is returned.  Otherwise: run
AcquisitionStop (its failure returns immediately, before CaptureEnd), then
CaptureEnd, CaptureQueueFlush, FrameRevokeAll in order, each failure returning
immediately; on full success the pool is cleared, nothing stays announced and
streaming_ is reset. -/
def stop_streaming (env : VmbCEnv) (s : CameraState) :
    Except Int Unit × CameraState :=
  if s.streaming = false then (Except.ok (), s)
  else
    let s1 : CameraState := { s with calls := s.calls ++ [ApiCall.acqStopRun] }
    match feature_command_run env SFNCFeatures.AcquisitionStop with
    | Except.error e => (Except.error e, s1)
    | Except.ok _ =>
      let s2 : CameraState := { s1 with calls := s1.calls ++ [ApiCall.captureEnd] }
      if env.captureEnd ≠ 0 then (Except.error env.captureEnd, s2)
      else
        let s3 : CameraState := { s2 with calls := s2.calls ++ [ApiCall.queueFlush] }
        if env.captureQueueFlush ≠ 0 then (Except.error env.captureQueueFlush, s3)
        else
          let s4 : CameraState := { s3 with calls := s3.calls ++ [ApiCall.frameRevokeAll] }
          if env.frameRevokeAll ≠ 0 then (Except.error env.frameRevokeAll, s4)
          else
            (Except.ok (), { s4 with announced := 0, frames := [], streaming := false })

/- ===================== frame completion callback ===================== -/

/-- VmbFrameStatusType: the completion status of a received frame. -/
inductive VmbFrameStatusType where
  | Complete
  | Incomplete
  | TooSmall
  | Invalid
  deriving DecidableEq

/-- What a single frame completion notification did: whether the
normalization of on_frame_ready ran (encoding, geometry, timestamp,
transform), whether the registered consumer callback was invoked, and whether
the buffer was re-queued inside the callback. -/
structure FrameCallbackEffect where
  normalized : Bool
  consumerInvoked : Bool
  requeued : Bool
  deriving DecidableEq

/-- Embedding of VimbaXCamera::Frame::vmb_frame_callback together with
on_frame_ready (lines 480-514): a frame whose receive status is Complete is
normalized and handed to the consumer callback (when one is set) and not
re-queued inside the callback; any other status skips normalization, never
invokes the consumer and immediately re-queues the buffer.  callbackSet tells
whether a consumer callback is registered (callback_ nonempty). -/
def Frame.vmb_frame_callback (receiveStatus : VmbFrameStatusType)
    (callbackSet : Bool) : FrameCallbackEffect :=
  if receiveStatus = VmbFrameStatusType.Complete then
    { normalized := true, consumerInvoked := callbackSet, requeued := false }
  else
    { normalized := false, consumerInvoked := false, requeued := true }

/- ===================== concrete environments ===================== -/

/-- An environment in which every subsystem call succeeds: payload size 5120,
pixel format Mono10 (PFNC value 0x01100003, 16 bits per pixel), width 64,
height 40. -/
def successEnv : VmbCEnv :=
  { payloadSizeGet := (0, 5120)
    pixelFormatGet := (0, 0x01100003)
    widthGet := (0, 64)
    heightGet := (0, 40)
    frameAnnounce := fun _ => 0
    captureStart := 0
    captureFrameQueue := fun _ => 0
    featureCommandRun := fun _ => 0
    captureEnd := 0
    captureQueueFlush := 0
    frameRevokeAll := 0 }

/-- successEnv except that FrameAnnounce fails with code e once k frames are
already announced (so the first k announces succeed and the next one fails). -/
def announceFailEnv (k : Nat) (e : Int) : VmbCEnv :=
  { successEnv with frameAnnounce := fun n => if n < k then 0 else e }

/- ===================== helper lemmas ===================== -/

theorem left_shift16_getD (src : List Nat) (size shift i : Nat)
    (hi : i < size) (hj : i < src.length) :
    (left_shift16 src size shift).getD i 0 = ((src.getD i 0) <<< shift) % 65536 := by
  simp [left_shift16, List.getD_eq_getElem?_getD, List.getElem?_map,
    List.getElem?_take, hi, hj, List.getElem?_eq_getElem]

theorem shift16_bits (s d w : Nat) (hsd : s + d = 16) :
    ((w <<< s) % 65536) % 2 ^ s = 0 ∧
    ((w <<< s) % 65536) >>> s = w % 2 ^ d := by
  have h65536 : (65536 : Nat) = 2 ^ d * 2 ^ s := by
    rw [← pow_add, Nat.add_comm d s, hsd]; norm_num
  rw [Nat.shiftLeft_eq, Nat.shiftRight_eq_div_pow, h65536, Nat.mul_mod_mul_right]
  constructor
  · simp [Nat.mul_mod_left]
  · exact Nat.mul_div_cancel _ (Nat.pos_pow_of_pos s (by norm_num))

theorem transform_shift_spec (s d : Nat) (hsd : s + d = 16)
    (imageData data : List Nat) (i : Nat)
    (hi : i < data.length) (hj : i < imageData.length) :
    ((left_shift16 imageData data.length s).getD i 0) % 2 ^ s = 0 ∧
    ((left_shift16 imageData data.length s).getD i 0) >>> s
      = (imageData.getD i 0) % 2 ^ d ∧
    (left_shift16 imageData data.length s).getD i 0
      = ((imageData.getD i 0) <<< s) % 2 ^ 16 := by
  rw [left_shift16_getD imageData data.length s i hi hj]
  refine ⟨(shift16_bits s d (imageData.getD i 0) hsd).1,
    (shift16_bits s d (imageData.getD i 0) hsd).2, by norm_num⟩

/- ===================== claim theorems ===================== -/

/-- Claim C3: a frame completion notification whose receive status is not
Complete skips normalization, never invokes the consumer callback, and
immediately re-queues the buffer. -/
theorem claim_C3_theorem (receiveStatus : VmbFrameStatusType) (callbackSet : Bool)
    (h : receiveStatus ≠ VmbFrameStatusType.Complete) :
    (Frame.vmb_frame_callback receiveStatus callbackSet).normalized = false ∧
    (Frame.vmb_frame_callback receiveStatus callbackSet).consumerInvoked = false ∧
    (Frame.vmb_frame_callback receiveStatus callbackSet).requeued = true := by
  simp [Frame.vmb_frame_callback, h]

/-- Witness for C3 at the Incomplete status with a consumer callback set. -/
theorem claim_C3_witness :
    VmbFrameStatusType.Incomplete ≠ VmbFrameStatusType.Complete ∧
    (Frame.vmb_frame_callback VmbFrameStatusType.Incomplete true).normalized = false ∧
    (Frame.vmb_frame_callback VmbFrameStatusType.Incomplete true).consumerInvoked = false ∧
    (Frame.vmb_frame_callback VmbFrameStatusType.Incomplete true).requeued = true :=
  ⟨by decide, claim_C3_theorem VmbFrameStatusType.Incomplete true (by decide)⟩

/-- Claim C4: when stop_streaming runs from the Streaming state and the
AcquisitionStop command fails, that error is returned immediately, the state
is unchanged except for the recorded AcquisitionStop attempt, and in
particular CaptureEnd (and the later flush/revoke/clear steps) is never
attempted. -/
theorem claim_C4_theorem (env : VmbCEnv) (s : CameraState) (e : Int)
    (hs : s.streaming = true)
    (hcode : env.featureCommandRun SFNCFeatures.AcquisitionStop = e)
    (he : e ≠ 0) :
    stop_streaming env s
      = (Except.error e, { s with calls := s.calls ++ [ApiCall.acqStopRun] }) ∧
    ApiCall.captureEnd ∉ ((stop_streaming env s).2.calls.drop s.calls.length) := by
  have h1 : stop_streaming env s
      = (Except.error e, { s with calls := s.calls ++ [ApiCall.acqStopRun] }) := by
    simp [stop_streaming, hs, feature_command_run, hcode, he]
  refine ⟨h1, ?_⟩
  rw [h1]
  simp

/-- Witness for C4: concrete environment failing AcquisitionStop with code 9
on a streaming camera. -/
def stopFailEnv : VmbCEnv :=
  { successEnv with
    featureCommandRun := fun c => if c = SFNCFeatures.AcquisitionStop then 9 else 0 }

theorem claim_C4_witness :
    ({ initState with streaming := true } : CameraState).streaming = true ∧
    stopFailEnv.featureCommandRun SFNCFeatures.AcquisitionStop = 9 ∧
    (9 : Int) ≠ 0 ∧
    stop_streaming stopFailEnv { initState with streaming := true }
      = (Except.error 9,
         { initState with streaming := true, calls := [ApiCall.acqStopRun] }) :=
  ⟨rfl, rfl, by decide,
    (claim_C4_theorem stopFailEnv { initState with streaming := true } 9 rfl rfl
      (by decide)).1⟩

/-- Claim C5: the timestamp conversion divides the ticks by
(frequency / nano_den) when the frequency exceeds nano_den and multiplies
them by (nano_den / frequency) otherwise, in integer arithmetic; at frequency
2000000000 with ticks 4000000000 it yields 2000000000 ns, and at frequency
500000000 with ticks 1000 it yields 2000 ns. -/
theorem claim_C5_theorem (t f : Nat) :
    (nano_den < f → timestamp_to_ns_conv t f = t / (f / nano_den)) ∧
    (f ≤ nano_den → timestamp_to_ns_conv t f = t * (nano_den / f)) ∧
    timestamp_to_ns 4000000000 (some 2000000000) = 2000000000 ∧
    timestamp_to_ns 1000 (some 500000000) = 2000 := by
  refine ⟨fun h => ?_, fun h => ?_, by decide, by decide⟩
  · simp [timestamp_to_ns_conv, h]
  · simp only [timestamp_to_ns_conv]
    rw [if_neg (by omega)]

/-- Witness for C5 discharging the first branch hypothesis at
frequency 2000000000 and ticks 4000000000. -/
theorem claim_C5_witness :
    nano_den < 2000000000 ∧
    timestamp_to_ns_conv 4000000000 2000000000
      = 4000000000 / (2000000000 / nano_den) :=
  ⟨by decide, (claim_C5_theorem 4000000000 2000000000).1 (by decide)⟩

/-- Claim C6: start_streaming while already streaming and stop_streaming
while already idle are no-ops returning success and leaving the state
unchanged. -/
theorem claim_C6_theorem (env : VmbCEnv) (bufferCount : Nat)
    (startAcquisition : Bool) (s1 s2 : CameraState)
    (h1 : s1.streaming = true) (h2 : s2.streaming = false) :
    start_streaming env bufferCount startAcquisition s1 = (Except.ok (), s1) ∧
    stop_streaming env s2 = (Except.ok (), s2) := by
  constructor
  · simp [start_streaming, h1]
  · simp [stop_streaming, h2]

/-- Witness for C6 on a streaming state and on the fresh idle state. -/
theorem claim_C6_witness :
    ({ initState with streaming := true } : CameraState).streaming = true ∧
    initState.streaming = false ∧
    start_streaming successEnv 2 true { initState with streaming := true }
      = (Except.ok (), { initState with streaming := true }) ∧
    stop_streaming successEnv initState = (Except.ok (), initState) := by
  have h := claim_C6_theorem successEnv 2 true
    { initState with streaming := true } initState rfl rfl
  exact ⟨rfl, rfl, h.1, h.2⟩

/-- Claim C8: the encoding map is total: every enumerated raw pixel format
tag yields a non-empty encoding string, and every tag outside the explicitly
mapped case labels yields the generic single-channel 8-bit fallback
TYPE_8UC1. -/
theorem claim_C8_theorem (fmt : VmbPixelFormatType) :
    Frame.get_image_encoding fmt ≠ "" ∧
    (fmt ∉ mappedFormats → Frame.get_image_encoding fmt = TYPE_8UC1) := by
  cases fmt <;>
    exact ⟨by decide, fun hmem => by first | rfl | exact absurd (by decide) hmem⟩

/-- Witness for C8 at the unmapped packed format Mono12Packed. -/
theorem claim_C8_witness :
    (VmbPixelFormatType.Mono12Packed ∉ mappedFormats) ∧
    Frame.get_image_encoding VmbPixelFormatType.Mono12Packed = TYPE_8UC1 :=
  ⟨by decide, (claim_C8_theorem VmbPixelFormatType.Mono12Packed).2 (by decide)⟩

/-- Claim C10: the divisions of the timestamp conversion are guarded for
every positive frequency (the checked variant never returns none), while at
frequency 0 the multiply branch divides nano_den by zero (the checked variant
returns none), showing the function is well defined only for nonzero
frequency. -/
theorem claim_C10_theorem :
    (∀ t f : Nat, 0 < f →
      timestamp_to_ns_checked t f = some (timestamp_to_ns_conv t f)) ∧
    (∀ t : Nat, timestamp_to_ns_checked t 0 = none) := by
  constructor
  · intro t f hf
    have hf' : f ≠ 0 := hf.ne'
    by_cases h : (1000000000 : Nat) < f
    · have hq : f / 1000000000 ≠ 0 :=
        (Nat.div_pos (le_of_lt h) (by norm_num)).ne'
      simp [timestamp_to_ns_checked, timestamp_to_ns_conv, checkedDiv,
        nano_den, h, hq]
    · simp [timestamp_to_ns_checked, timestamp_to_ns_conv, checkedDiv,
        nano_den, h, hf']
  · intro t
    simp [timestamp_to_ns_checked, checkedDiv, nano_den]

/-- Witness for C10 at the positive frequency 2. -/
theorem claim_C10_witness :
    0 < 2 ∧ timestamp_to_ns_checked 7 2 = some (timestamp_to_ns_conv 7 2) :=
  ⟨by decide, claim_C10_theorem.1 7 2 (by decide)⟩

/-- Claim C2 (spec-modelled for left_shift16): for every raw pixel format of
bit depth d in {10, 12, 14}, the pixel transform left-shifts every 16-bit
sample by 16 - d, so every output sample has its low 16 - d bits zero, its
top d bits equal to the low d bits of the corresponding input sample, and
equals the input sample shifted left by 16 - d modulo 2^16. -/
theorem claim_C2_theorem (fmt : VmbPixelFormatType) (d : Nat)
    (mode : AllocationMode) (imageData data : List Nat) (i : Nat)
    (hd : rawBitDepth fmt = some d) (hi : i < data.length)
    (hj : i < imageData.length) :
    ((Frame.transform fmt mode imageData data).getD i 0) % 2 ^ (16 - d) = 0 ∧
    ((Frame.transform fmt mode imageData data).getD i 0) >>> (16 - d)
      = (imageData.getD i 0) % 2 ^ d ∧
    (Frame.transform fmt mode imageData data).getD i 0
      = ((imageData.getD i 0) <<< (16 - d)) % 2 ^ 16 := by
  cases fmt <;> simp only [rawBitDepth, Option.some.injEq, reduceCtorEq] at hd <;>
    subst hd <;>
    first
      | simpa [Frame.transform] using
          transform_shift_spec 6 10 (by norm_num) imageData data i hi hj
      | simpa [Frame.transform] using
          transform_shift_spec 4 12 (by norm_num) imageData data i hi hj
      | simpa [Frame.transform] using
          transform_shift_spec 2 14 (by norm_num) imageData data i hi hj

/-- Witness for C2 on a Mono12 frame with one sample 2748 = 0xABC. -/
theorem claim_C2_witness :
    rawBitDepth VmbPixelFormatType.Mono12 = some 12 ∧
    (0 : Nat) < ([7] : List Nat).length ∧
    (0 : Nat) < ([2748] : List Nat).length ∧
    ((Frame.transform VmbPixelFormatType.Mono12 AllocationMode.kByTl
        [2748] [7]).getD 0 0) >>> 4 = 2748 % 2 ^ 12 :=
  ⟨rfl, by decide, by decide,
    (claim_C2_theorem VmbPixelFormatType.Mono12 12 AllocationMode.kByTl
      [2748] [7] 0 rfl (by decide) (by decide)).2.1⟩

/- ===================== C1: announce failure during start ===================== -/

/-- The Frame record Frame.create builds under the device feature values of
successEnv (pixel format 0x01100003, width 64, height 40), for a requested
buffer size p. -/
def successFrame (p : Nat) : Frame :=
  { allocation_mode := Frame.createAllocMode 17825795 64 40 p
    data_size :=
      if Frame.createAllocMode 17825795 64 40 p = AllocationMode.kByTl then
        40 * lineOf 64 (bppOf 17825795)
      else p
    buffer_size := p
    step := lineOf 64 (bppOf 17825795) }

theorem create_announceFail_ok (k : Nat) (e : Int) (p : Nat)
    (str : Bool) (frs : List Frame) (ann : Nat) (cl : List ApiCall)
    (hk : ann < k) :
    Frame.create (announceFailEnv k e) p ⟨str, frs, ann, cl⟩
      = (Except.ok (successFrame p),
         ⟨str, frs, ann + 1, cl ++ [ApiCall.frameAnnounce]⟩) := by
  simp [Frame.create, announceFailEnv, successEnv, successFrame, hk]

theorem create_announceFail_err (k : Nat) (e : Int) (he : e ≠ 0) (p : Nat)
    (str : Bool) (frs : List Frame) (ann : Nat) (cl : List ApiCall)
    (hk : ¬ ann < k) :
    Frame.create (announceFailEnv k e) p ⟨str, frs, ann, cl⟩
      = (Except.error e, ⟨str, frs, ann, cl ++ [ApiCall.frameAnnounce]⟩) := by
  simp [Frame.create, announceFailEnv, successEnv, hk, he]

theorem announceLoop_fail (k : Nat) (e : Int) (he : e ≠ 0) (p : Nat) :
    ∀ (count : Nat) (str : Bool) (frs : List Frame) (ann : Nat)
      (cl : List ApiCall), k < ann + count → ann ≤ k →
      (announceLoop (announceFailEnv k e) p count ⟨str, frs, ann, cl⟩).1
        = Except.error e ∧
      (announceLoop (announceFailEnv k e) p count ⟨str, frs, ann, cl⟩).2.announced
        = k ∧
      (announceLoop (announceFailEnv k e) p count
          ⟨str, frs, ann, cl⟩).2.frames.length = frs.length + (k - ann) ∧
      (announceLoop (announceFailEnv k e) p count ⟨str, frs, ann, cl⟩).2.streaming
        = str ∧
      (ApiCall.frameRevokeAll ∉ cl →
        ApiCall.frameRevokeAll
          ∉ (announceLoop (announceFailEnv k e) p count ⟨str, frs, ann, cl⟩).2.calls) := by
  intro count
  induction count with
  | zero => intro str frs ann cl h1 h2; omega
  | succ n ih =>
    intro str frs ann cl h1 h2
    rcases Nat.lt_or_ge ann k with hk | hk
    · have hcre := create_announceFail_ok k e p str frs ann cl hk
      simp only [announceLoop, hcre]
      have hrec := ih str (frs ++ [successFrame p]) (ann + 1)
        (cl ++ [ApiCall.frameAnnounce]) (by omega) (by omega)
      refine ⟨hrec.1, hrec.2.1, ?_, hrec.2.2.2.1, ?_⟩
      · rw [hrec.2.2.1]
        simp
        omega
      · intro hmem
        refine hrec.2.2.2.2 ?_
        simp [hmem]
    · have hcre := create_announceFail_err k e he p str frs ann cl (by omega)
      simp only [announceLoop, hcre]
      refine ⟨trivial, by omega, by simp; omega, trivial, ?_⟩
      intro hmem
      simp [hmem]

/-- Claim C1 (amended): if announcing fails with error e once k frames of the
requested N are already announced (k < N, so the (k+1)-th announce is the
failing one), start_streaming aborts returning exactly that error, but the k
already-announced buffers are NOT revoked or released: they stay announced
with the capture subsystem and stay in the frames_ pool, FrameRevokeAll is
never called, and the camera stays non-streaming. -/
theorem claim_C1_theorem (k N : Nat) (e : Int) (he : e ≠ 0) (hk : k < N) :
    (start_streaming (announceFailEnv k e) N true initState).1 = Except.error e ∧
    (start_streaming (announceFailEnv k e) N true initState).2.announced = k ∧
    (start_streaming (announceFailEnv k e) N true initState).2.frames.length = k ∧
    (start_streaming (announceFailEnv k e) N true initState).2.streaming = false ∧
    ApiCall.frameRevokeAll
      ∉ (start_streaming (announceFailEnv k e) N true initState).2.calls := by
  have hloop := announceLoop_fail k e he 5120 N false [] 0 [ApiCall.payloadSizeGet]
    (by omega) (by omega)
  rcases hr : announceLoop (announceFailEnv k e) 5120 N
      ⟨false, [], 0, [ApiCall.payloadSizeGet]⟩ with ⟨r1, s2⟩
  rw [hr] at hloop
  obtain ⟨h1, h2, h3, h4, h5⟩ := hloop
  dsimp only at h1 h2 h3 h4 h5
  subst h1
  have hss : start_streaming (announceFailEnv k e) N true initState
      = (Except.error e, s2) := by
    have hp : (announceFailEnv k e).payloadSizeGet = ((0 : Int), 5120) := rfl
    simp only [start_streaming, initState, hp]
    norm_num
    rw [hr]
  rw [hss]
  refine ⟨rfl, h2, ?_, h4, h5 (by simp)⟩
  simpa using h3

/-- Counterexample to C1 as stated: with N = 3 buffers and the second announce
failing with code 17 (one buffer already announced), start_streaming returns
the announce error but the already-announced buffer is NOT revoked/released:
it is still announced with the capture subsystem afterwards, so an incomplete
buffer set survives, contradicting the claimed revoke/release unwinding. -/
theorem claim_C1_counterexample :
    (start_streaming (announceFailEnv 1 17) 3 true initState).1
      = Except.error 17 ∧
    (start_streaming (announceFailEnv 1 17) 3 true initState).2.announced ≠ 0 := by
  constructor
  · rfl
  · decide

/-- Witness for C1 (amended) at k = 1, N = 3, e = 17. -/
theorem claim_C1_witness :
    (17 : Int) ≠ 0 ∧ 1 < 3 ∧
    (start_streaming (announceFailEnv 1 17) 3 true initState).2.frames.length
      = 1 :=
  ⟨by decide, by decide, (claim_C1_theorem 1 3 17 (by decide) (by decide)).2.2.1⟩

/- ===================== C7: start then stop ===================== -/

theorem create_successEnv_ok (p : Nat) (str : Bool) (frs : List Frame)
    (ann : Nat) (cl : List ApiCall) :
    Frame.create successEnv p ⟨str, frs, ann, cl⟩
      = (Except.ok (successFrame p),
         ⟨str, frs, ann + 1, cl ++ [ApiCall.frameAnnounce]⟩) := by
  simp [Frame.create, successEnv, successFrame]

theorem announceLoop_successEnv (p : Nat) :
    ∀ (count : Nat) (str : Bool) (frs : List Frame) (ann : Nat)
      (cl : List ApiCall),
      (announceLoop successEnv p count ⟨str, frs, ann, cl⟩).1 = Except.ok () ∧
      (announceLoop successEnv p count ⟨str, frs, ann, cl⟩).2.streaming = str := by
  intro count
  induction count with
  | zero => intro str frs ann cl; simp [announceLoop]
  | succ n ih =>
    intro str frs ann cl
    have hcre := create_successEnv_ok p str frs ann cl
    simp only [announceLoop, hcre]
    exact ih str (frs ++ [successFrame p]) (ann + 1) (cl ++ [ApiCall.frameAnnounce])

theorem queueLoop_successEnv :
    ∀ (count i : Nat) (str : Bool) (frs : List Frame) (ann : Nat)
      (cl : List ApiCall),
      (queueLoop successEnv count i ⟨str, frs, ann, cl⟩).1 = Except.ok () ∧
      (queueLoop successEnv count i ⟨str, frs, ann, cl⟩).2.streaming = str := by
  intro count
  induction count with
  | zero => intro i str frs ann cl; simp [queueLoop]
  | succ n ih =>
    intro i str frs ann cl
    simp only [queueLoop, successEnv]
    norm_num
    exact ih (i + 1) str frs ann (cl ++ [ApiCall.frameQueue])

theorem stop_streaming_successEnv (s : CameraState) (hs : s.streaming = true) :
    (stop_streaming successEnv s).1 = Except.ok () ∧
    (stop_streaming successEnv s).2.streaming = false ∧
    (stop_streaming successEnv s).2.frames = [] := by
  simp [stop_streaming, hs, feature_command_run, successEnv]

theorem start_streaming_successEnv (N : Nat) :
    (start_streaming successEnv N true initState).1 = Except.ok () ∧
    (start_streaming successEnv N true initState).2.streaming = true := by
  have hloop := announceLoop_successEnv 5120 N false [] 0 [ApiCall.payloadSizeGet]
  rcases hr : announceLoop successEnv 5120 N
      ⟨false, [], 0, [ApiCall.payloadSizeGet]⟩ with ⟨r1, s2⟩
  rw [hr] at hloop
  obtain ⟨h1, h4⟩ := hloop
  dsimp only at h1 h4
  subst h1
  obtain ⟨str2, frs2, ann2, cl2⟩ := s2
  dsimp only at h4
  subst h4
  have hq := queueLoop_successEnv frs2.length 0 false frs2 ann2
    (cl2 ++ [ApiCall.captureStart])
  rcases hq2 : queueLoop successEnv frs2.length 0
      ⟨false, frs2, ann2, cl2 ++ [ApiCall.captureStart]⟩ with ⟨q1, s4⟩
  rw [hq2] at hq
  obtain ⟨hq1, hq4⟩ := hq
  dsimp only at hq1 hq4
  subst hq1
  have hp : successEnv.payloadSizeGet = ((0 : Int), 5120) := rfl
  have hcs : successEnv.captureStart = (0 : Int) := rfl
  have hfr : successEnv.featureCommandRun SFNCFeatures.AcquisitionStart
      = (0 : Int) := rfl
  simp only [start_streaming, initState, hp]
  norm_num
  rw [hr]
  dsimp only
  simp only [hcs]
  norm_num
  rw [hq2]
  dsimp only
  simp only [feature_command_run, hfr]
  norm_num

/-- Claim C7: for any bufferCount of at least 1, in an environment where
every subsystem call succeeds, start_streaming succeeds and an immediately
following stop_streaming succeeds and leaves the camera idle (is_streaming
false) with an empty frames_ pool. -/
theorem claim_C7_theorem (bufferCount : Nat) (hn : 1 ≤ bufferCount) :
    (start_streaming successEnv bufferCount true initState).1 = Except.ok () ∧
    (stop_streaming successEnv
        (start_streaming successEnv bufferCount true initState).2).1
      = Except.ok () ∧
    is_streaming (stop_streaming successEnv
        (start_streaming successEnv bufferCount true initState).2).2 = false ∧
    (stop_streaming successEnv
        (start_streaming successEnv bufferCount true initState).2).2.frames
      = [] := by
  obtain ⟨h1, h2⟩ := start_streaming_successEnv bufferCount
  have h3 := stop_streaming_successEnv _ h2
  exact ⟨h1, h3.1, h3.2.1, h3.2.2⟩

/-- Witness for C7 at bufferCount 3. -/
theorem claim_C7_witness :
    1 ≤ 3 ∧
    (stop_streaming successEnv
        (start_streaming successEnv 3 true initState).2).2.frames = [] :=
  ⟨by decide, (claim_C7_theorem 3 (by decide)).2.2.2⟩

/- ===================== C9: allocation mode and verbatim copy ===================== -/

theorem transform_default (fmt : VmbPixelFormatType)
    (hfmt : rawBitDepth fmt = none) (mode : AllocationMode)
    (imageData data : List Nat) :
    Frame.transform fmt mode imageData data
      = if mode = AllocationMode.kByTl then imageData.take data.length
        else data := by
  cases fmt <;> first
    | rfl
    | simp [rawBitDepth] at hfmt

/-- Counterexample to C9 as stated: with pixel format value 0x01080001
(8 bits per pixel), width 2, height 1 and requested size 2, Frame.create
chooses ByImage although the requested size does not equal
width * height * bytes-per-line (which is 4): the code compares against
height * bytes-per-line only, so the claimed formula misstates the
condition. -/
theorem claim_C9_counterexample :
    Frame.createAllocMode 0x01080001 2 1 2 = AllocationMode.kByImage ∧
    (2 : Nat) ≠ 2 * 1 * lineOf 2 (bppOf 0x01080001) := by
  constructor
  · rfl
  · decide

/-- Claim C9 (amended): the allocation mode is ByImage exactly when the
requested size equals height * bytes-per-line with bytes-per-line =
width * bits-per-pixel / 8 (otherwise ByTransportLayer), and for every
non-shifted format the transform copies the raw buffer verbatim into the
normalized buffer under ByTransportLayer (byte-identical output for matching
lengths) while ByImage performs no copy at all. -/
theorem claim_C9_theorem (pf w h size : Nat) (fmt : VmbPixelFormatType)
    (hfmt : rawBitDepth fmt = none) (imageData data : List Nat)
    (hlen : imageData.length = data.length) :
    (Frame.createAllocMode pf w h size = AllocationMode.kByImage
      ↔ size = h * lineOf w (bppOf pf)) ∧
    Frame.transform fmt AllocationMode.kByTl imageData data = imageData ∧
    Frame.transform fmt AllocationMode.kByImage imageData data = data := by
  refine ⟨?_, ?_, ?_⟩
  · unfold Frame.createAllocMode
    split_ifs with hc
    · simp [hc.symm]
    · constructor
      · intro hcon; exact absurd hcon (by decide)
      · intro hs; exact absurd hs.symm hc
  · rw [transform_default fmt hfmt AllocationMode.kByTl imageData data,
      if_pos rfl, ← hlen, List.take_length]
  · rw [transform_default fmt hfmt AllocationMode.kByImage imageData data,
      if_neg (by decide)]

/-- Witness for C9 (amended) at the Mono8 format with two-element buffers. -/
theorem claim_C9_witness :
    rawBitDepth VmbPixelFormatType.Mono8 = none ∧
    ([5, 6] : List Nat).length = ([9, 9] : List Nat).length ∧
    Frame.transform VmbPixelFormatType.Mono8 AllocationMode.kByTl [5, 6] [9, 9]
      = [5, 6] ∧
    Frame.transform VmbPixelFormatType.Mono8 AllocationMode.kByImage [5, 6]
      [9, 9] = [9, 9] := by
  have h := claim_C9_theorem 0x01080001 4 2 8 VmbPixelFormatType.Mono8 rfl
    ([5, 6] : List Nat) ([9, 9] : List Nat) rfl
  exact ⟨rfl, rfl, h.2.1, h.2.2⟩
